import Mathlib

/-!
Verification of the Autopostulador backend (Python) against its design
specification.  The Python services are shallowly embedded as Lean
functions: the Mongo document store becomes an explicit `Store` record,
`datetime.utcnow()` becomes an explicit `now : Nat` parameter, and the
external collaborators (portal pages, browser driver, AI provider) become
oracle parameters.  Definitions follow src/backend/models.py,
src/backend/server.py and src/backend/services/*.py.
-/

namespace Autopostulador

/-! ## Data model (src/backend/models.py) -/

/-- The `JobPortal` enum (models.py lines 8-12). -/
inductive JobPortal
  | linkedin
  | laborum
  | bne
  | trabajando
  deriving DecidableEq

/-- The `ApplicationStatus` enum (models.py lines 15-21). -/
inductive ApplicationStatus
  | pending
  | applied
  | viewed
  | rejected
  | interview
  | offer
  deriving DecidableEq

/-- The `JobPosting` (models.py lines 91-111); fields not read by any service
(salary, benefits, dates, match_percentage) are elided. -/
structure JobPosting where
  id : String
  portal : JobPortal
  external_id : String
  url : String
  title : String
  company : String
  location : String
  description : String
  requirements : List String
  keywords_matched : List String
  deriving DecidableEq

/-- The `CVData` (models.py lines 50-64).  Python `Dict[str, Any]` payloads are
embedded as string association lists; timestamps as `Nat`. -/
structure CVData where
  id : String
  user_id : String
  title : String
  personal_info : List (String × String)
  experience : List String
  education : List String
  skills : List String
  certifications : List String
  languages : List String
  raw_text : String
  is_default : Bool
  created_at : Nat
  updated_at : Nat
  deriving DecidableEq

/-- The `JobApplication` (models.py lines 115-129). -/
structure JobApplication where
  id : String
  user_id : String
  job_id : String
  cv_used : String
  cover_letter : Option String
  custom_message : Option String
  portal_data : List (String × String)
  status : ApplicationStatus
  applied_at : Option Nat
  last_update : Nat
  notes : Option String
  created_at : Nat
  deriving DecidableEq

/-- The `CVDataCreate` request body (models.py lines 169-178). -/
structure CVDataCreate where
  title : String
  personal_info : List (String × String)
  experience : List String
  education : List String
  skills : List String
  certifications : List String
  languages : List String
  raw_text : String
  is_default : Bool
  deriving DecidableEq

/-- The `SearchFilters` (models.py lines 68-87); only the fields the scraper
reads are kept. -/
structure SearchFilters where
  id : String
  user_id : String
  keywords : List String
  excluded_keywords : List String
  locations : List String
  portals : List JobPortal
  auto_apply : Bool
  max_applications_per_day : Nat
  is_active : Bool
  deriving DecidableEq

/-- Python `dict.get(key, default)` on a string association list. -/
def dict_get (d : List (String × String)) (key default_value : String) : String :=
  match d.find? (fun kv => kv.1 == key) with
  | some kv => kv.2
  | none => default_value

/-! ## AI service (src/backend/services/ai_service.py)

`self.active_chats` is embedded as the list of user ids holding a chat, and
the outcome of `chat.send_message` as an oracle `provider : Option String`
(`some r` = the call returned `r`; `none` = the call raised). -/

/-- The `AIService.generate_cover_letter` (ai_service.py lines 107-146).
If the user has no active chat the short fixed template is returned; with a
chat, the provider response is returned, and a provider exception falls back
to the longer template that also interpolates the personal_info name entry
(empty default). -/
def generate_cover_letter (active_chats : List String) (provider : Option String)
    (user_id : String) (cv_data : CVData) (job_posting : JobPosting) : String :=
  if active_chats.contains user_id then
    match provider with
    | some response => response
    | none =>
        "Estimados Sres. de " ++ job_posting.company ++
          ",\n\nTengo gran interés en el cargo de " ++ job_posting.title ++
          ". Mi experiencia profesional me permite contribuir efectivamente al equipo. Adjunto mi CV para su revisión.\n\nSaludos cordiales,\n" ++
          dict_get cv_data.personal_info "name" ""
  else
    "Estimados Sres. de " ++ job_posting.company ++
      ", adjunto mi CV para el cargo de " ++ job_posting.title ++ ". Saludos cordiales."

/-- Python `str.lower()`: lowercase character by character. -/
def py_lower (s : String) : String :=
  String.mk (s.toList.map Char.toLower)

/-- Word accumulator of `py_split` (characters of the current word are kept
reversed). -/
def py_split_aux : List Char → List Char → List String
  | [], acc => if acc.isEmpty then [] else [String.mk acc.reverse]
  | c :: cs, acc =>
    if c.isWhitespace then
      if acc.isEmpty then py_split_aux cs []
      else String.mk acc.reverse :: py_split_aux cs []
    else py_split_aux cs (c :: acc)

/-- Python `str.split()`: split on whitespace runs, dropping empty pieces. -/
def py_split (s : String) : List String :=
  py_split_aux s.toList []

/-- Deduplication underlying Python's `set(...)`: each word once. -/
def py_dedup : List String → List String
  | [] => []
  | x :: xs =>
    let r := py_dedup xs
    if r.contains x then r else x :: r

/-- The `set(cv_text.split()) & set(job_text.split())` of
`_basic_compatibility_analysis`: the distinct words occurring in both texts. -/
def common_words (cv_text job_text : String) : List String :=
  (py_dedup (py_split cv_text)).filter (fun w => (py_split job_text).contains w)

/-- Result shape of `analyze_job_compatibility`. -/
structure CompatibilityAnalysis where
  compatibility_percentage : Nat
  strengths : List String
  weaknesses : List String
  recommendation : String
  matched_keywords : List String
  deriving DecidableEq

/-- The `AIService._basic_compatibility_analysis` (ai_service.py lines 243-259). -/
def basic_compatibility_analysis (cv_data : CVData) (job_posting : JobPosting) :
    CompatibilityAnalysis :=
  let cv_text := py_lower cv_data.raw_text
  let job_text := py_lower (job_posting.description ++ " " ++
    String.intercalate " " job_posting.requirements)
  let common := common_words cv_text job_text
  let compatibility := Nat.min (common.length * 10) 100
  { compatibility_percentage := compatibility
    strengths := ["Experiencia profesional relevante", "Perfil completo", "Interés en el sector"]
    weaknesses := ["Revisar requisitos específicos", "Validar experiencia técnica"]
    recommendation := if 30 < compatibility then "Tal vez" else "No"
    matched_keywords := common.take 5 }

/-! ## Scraper service (src/backend/services/scraper_service.py)

The scraper's mutable state (`current_counts`, `last_reset`) is embedded as a
record; dates are `Nat`.  The content a portal page yields is external, so
each `_scrape_*` routine takes the per-card extraction results as an oracle
list, and `search_jobs` takes a per-portal fetch oracle (`none` = the whole
portal fetch raised). -/

/-- Mutable counters of `ScraperService.__init__` (scraper_service.py
lines 30-31). -/
structure ScraperState where
  current_counts : JobPortal → Nat
  last_reset : Nat

/-- The `self.daily_limits` (scraper_service.py lines 24-29). -/
def daily_limits : JobPortal → Nat
  | JobPortal.linkedin => 20
  | JobPortal.laborum => 15
  | JobPortal.bne => 25
  | JobPortal.trabajando => 15

/-- The `ScraperService._reset_daily_limits` (scraper_service.py lines 33-39):
lazily zero every counter when the current date is past `last_reset`. -/
def reset_daily_limits (today : Nat) (st : ScraperState) : ScraperState :=
  if st.last_reset < today then { current_counts := fun _ => 0, last_reset := today }
  else st

/-- The quota check of `search_jobs` (scraper_service.py line 68): the portal
is allowed while `current_counts[portal] < daily_limits[portal]`, and the
loop skips it (`continue`) otherwise.  This is the §4.1 `allow(portal)`. -/
def quota_allows (st : ScraperState) (portal : JobPortal) : Bool :=
  decide (st.current_counts portal < daily_limits portal)

/-- The portal loop of `ScraperService.search_jobs` (scraper_service.py
lines 67-94): for each configured portal, skip when the quota refuses it,
otherwise fetch (a raising fetch skips the portal) and add the batch length
to the portal's counter. -/
def search_jobs_go (fetch : JobPortal → Option (List JobPosting)) :
    List JobPortal → ScraperState → List JobPosting × ScraperState
  | [], st => ([], st)
  | portal :: rest, st =>
    if quota_allows st portal then
      match fetch portal with
      | none => search_jobs_go fetch rest st
      | some jobs =>
        let st' : ScraperState :=
          { st with current_counts := fun q =>
              if q = portal then st.current_counts q + jobs.length
              else st.current_counts q }
        let r := search_jobs_go fetch rest st'
        (jobs ++ r.1, r.2)
    else
      search_jobs_go fetch rest st

/-- The `ScraperService.search_jobs` (scraper_service.py lines 62-96): reset the
daily counters lazily, then walk `filters.portals`. -/
def search_jobs (today : Nat) (fetch : JobPortal → Option (List JobPosting))
    (filters : SearchFilters) (st : ScraperState) : List JobPosting × ScraperState :=
  search_jobs_go fetch filters.portals (reset_daily_limits today st)

/-- The `ScraperService._find_matching_keywords` (scraper_service.py
lines 331-340): keywords whose lowercase form occurs in the lowercased text,
in input order. -/
def find_matching_keywords (text : String) (keywords : List String) : List String :=
  let text_lower := py_lower text
  keywords.filter (fun keyword => decide ((py_lower keyword).toList <:+: text_lower.toList))

/-- One iteration of a scraper's card loop: skip a failed extraction,
otherwise append the job built from the card. -/
def scrape_step {α : Type} (g : α → JobPosting) (jobs : List JobPosting)
    (c : Option α) : List JobPosting :=
  match c with
  | none => jobs
  | some card => jobs ++ [g card]

/-- Fields extracted from one LinkedIn job card (scraper_service.py
lines 120-123). -/
structure LinkedInCard where
  job_id : String
  title : String
  href : String
  company : String
  location : String
  deriving DecidableEq

/-- The `JobPosting` built for one LinkedIn card (scraper_service.py
lines 125-135).  The pydantic-generated uuid `id` is external randomness and
is embedded as `""`. -/
def mk_linkedin_job (filters : SearchFilters) (card : LinkedInCard) : JobPosting :=
  { id := ""
    portal := JobPortal.linkedin
    external_id := card.job_id
    url := card.href
    title := card.title
    company := card.company
    location := card.location
    description := ""
    requirements := []
    keywords_matched := find_matching_keywords card.title filters.keywords }

/-- The `ScraperService._scrape_linkedin` (scraper_service.py lines 98-151): the
card loop runs over `job_cards[:self.daily_limits[LINKEDIN]]`; a card whose
extraction raises (`none`) is skipped and the batch continues. -/
def scrape_linkedin (filters : SearchFilters)
    (cards : List (Option LinkedInCard)) : List JobPosting :=
  (cards.take (daily_limits JobPortal.linkedin)).foldl (scrape_step (mk_linkedin_job filters)) []

/-- Fields extracted from one Laborum card (scraper_service.py
lines 179-190); `none` sub-fields are the absent-element fallbacks. -/
structure LaborumCard where
  title : String
  company : Option String
  location : Option String
  href : Option String
  deriving DecidableEq

/-- The `JobPosting` built for one Laborum card (scraper_service.py
lines 186-202).  The random fallback `external_id` is embedded as `""`. -/
def mk_laborum_job (filters : SearchFilters) (card : LaborumCard) : JobPosting :=
  let location := match filters.locations with
    | [] => "Santiago"
    | l :: _ => l
  let job_url := match card.href with
    | some h => if h.startsWith "http" then h else "https://www.trabajando.com" ++ h
    | none => ""
  { id := ""
    portal := JobPortal.laborum
    external_id := if job_url != "" then (job_url.splitOn "/").getLastD "" else ""
    url := job_url
    title := card.title
    company := card.company.getD "No especificado"
    location := card.location.getD location
    description := ""
    requirements := []
    keywords_matched := find_matching_keywords card.title filters.keywords }

/-- The `ScraperService._scrape_laborum` (scraper_service.py lines 153-215): loop
over `job_cards[:self.daily_limits[LABORUM]]` with per-card skip (`none` also
covers the `if not title_elem: continue` path). -/
def scrape_laborum (filters : SearchFilters)
    (cards : List (Option LaborumCard)) : List JobPosting :=
  (cards.take (daily_limits JobPortal.laborum)).foldl (scrape_step (mk_laborum_job filters)) []

/-- Fields extracted from one BNE element (scraper_service.py
lines 243-254). -/
structure BneCard where
  title : String
  company : Option String
  deriving DecidableEq

/-- The `JobPosting` built for one BNE element (scraper_service.py
lines 249-259); its `external_id` is random in the source, embedded `""`. -/
def mk_bne_job (filters : SearchFilters) (search_url : String) (card : BneCard) : JobPosting :=
  { id := ""
    portal := JobPortal.bne
    external_id := ""
    url := search_url
    title := card.title
    company := card.company.getD "Empleador BNE"
    location := "Chile"
    description := ""
    requirements := []
    keywords_matched := find_matching_keywords card.title filters.keywords }

/-- The `ScraperService._scrape_bne` (scraper_service.py lines 217-272): loop over
`job_elements[:self.daily_limits[BNE]]` with per-item skip. -/
def scrape_bne (filters : SearchFilters) (search_url : String)
    (cards : List (Option BneCard)) : List JobPosting :=
  (cards.take (daily_limits JobPortal.bne)).foldl (scrape_step (mk_bne_job filters search_url)) []

/-- Fields extracted from one Trabajando.com card (scraper_service.py
lines 300-311). -/
structure TrabajandoCard where
  title : String
  company : Option String
  deriving DecidableEq

/-- The `JobPosting` built for one Trabajando.com card (scraper_service.py
lines 306-316). -/
def mk_trabajando_job (filters : SearchFilters) (search_url : String)
    (card : TrabajandoCard) : JobPosting :=
  { id := ""
    portal := JobPortal.trabajando
    external_id := ""
    url := search_url
    title := card.title
    company := card.company.getD "Empresa"
    location := "Santiago, Chile"
    description := ""
    requirements := []
    keywords_matched := find_matching_keywords card.title filters.keywords }

/-- The `ScraperService._scrape_trabajando` (scraper_service.py lines 274-329):
loop over `job_cards[:self.daily_limits[TRABAJANDO]]` with per-card skip. -/
def scrape_trabajando (filters : SearchFilters) (search_url : String)
    (cards : List (Option TrabajandoCard)) : List JobPosting :=
  (cards.take (daily_limits JobPortal.trabajando)).foldl (scrape_step (mk_trabajando_job filters search_url)) []

/-! ## Document store (the Mongo collections used by server.py and
application_service.py) -/

/-- The collections touched by the embedded endpoints and pipeline. -/
structure Store where
  applications : List JobApplication
  jobs : List JobPosting
  cvs : List CVData
  deriving DecidableEq

/-- Mongo `update_one`: rewrite the first element matching the predicate. -/
def update_first {α : Type} (p : α → Bool) (f : α → α) : List α → List α
  | [] => []
  | x :: xs => if p x then f x :: xs else x :: update_first p f xs

/-! ## Application pipeline (src/backend/services/application_service.py) -/

/-- The `ApplicationService._update_application_status` (application_service.py
lines 78-92): `$set` status, `last_update` and `notes` on the first matching
application, and also `applied_at` exactly when the new status is APPLIED. -/
def update_application_status (st : Store) (application_id : String)
    (status : ApplicationStatus) (now : Nat) (notes : String) : Store :=
  { st with applications :=
      (update_first (fun a => a.id == application_id)
        (fun a =>
          { a with
            status := status
            last_update := now
            notes := some notes
            applied_at := if status = ApplicationStatus.applied then some now else a.applied_at })
        st.applications) }

/-- Python truthiness of `application.cover_letter` (`None` and `""` are
falsy). -/
def py_falsy_str : Option String → Bool
  | none => true
  | some s => s == ""

/-- The `ApplicationService._apply_linkedin` (application_service.py
lines 94-114): on a clean run (`ok`), set `portal_data` on the in-memory
application object and return success; a raised exception returns failure. -/
def apply_linkedin (ok : Bool) (now : Nat) (application : JobApplication) :
    Bool × JobApplication :=
  if ok then
    (true,
      { application with portal_data :=
          [("method", "linkedin_easy_apply"),
           ("timestamp", toString now),
           ("cover_letter_sent", if py_falsy_str application.cover_letter then "False" else "True")] })
  else (false, application)

/-- The `ApplicationService._apply_laborum` (application_service.py
lines 116-134). -/
def apply_laborum (ok : Bool) (now : Nat) (application : JobApplication) :
    Bool × JobApplication :=
  if ok then
    (true,
      { application with portal_data :=
          [("method", "laborum_form"), ("timestamp", toString now), ("form_filled", "True")] })
  else (false, application)

/-- The `ApplicationService._apply_bne` (application_service.py lines 136-153). -/
def apply_bne (ok : Bool) (now : Nat) (application : JobApplication) :
    Bool × JobApplication :=
  if ok then
    (true,
      { application with portal_data :=
          [("method", "bne_portal"), ("timestamp", toString now)] })
  else (false, application)

/-- The `ApplicationService._apply_trabajando` (application_service.py
lines 155-172). -/
def apply_trabajando (ok : Bool) (now : Nat) (application : JobApplication) :
    Bool × JobApplication :=
  if ok then
    (true,
      { application with portal_data :=
          [("method", "trabajando_form"), ("timestamp", toString now)] })
  else (false, application)

/-- The `ApplicationService.process_application` (application_service.py
lines 17-76).  External effects become parameters: `now` the clock,
`active_chats`/`provider` the AI collaborator (as in `generate_cover_letter`),
and `submit_ok` whether each portal submission routine's body completes
without raising.  A missing application is a silent `return`; a missing job
or CV transitions to REJECTED with "Datos incompletos"; otherwise the
portal-specific routine runs and the status is persisted — note the in-memory
`application` (with its cover letter and `portal_data`) is dropped, only the
`_update_application_status` fields are written back. -/
def process_application (st : Store) (application_id : String) (now : Nat)
    (active_chats : List String) (provider : Option String)
    (submit_ok : JobPortal → Bool) : Store :=
  match st.applications.find? (fun a => a.id == application_id) with
  | none => st
  | some app_doc =>
    match st.jobs.find? (fun j => j.id == app_doc.job_id),
          st.cvs.find? (fun c => c.id == app_doc.cv_used) with
    | some job_posting, some cv_data =>
      let application :=
        if py_falsy_str app_doc.cover_letter then
          { app_doc with cover_letter :=
              (some (generate_cover_letter active_chats provider app_doc.user_id cv_data job_posting)) }
        else app_doc
      let result :=
        match job_posting.portal with
        | JobPortal.linkedin => apply_linkedin (submit_ok JobPortal.linkedin) now application
        | JobPortal.laborum => apply_laborum (submit_ok JobPortal.laborum) now application
        | JobPortal.bne => apply_bne (submit_ok JobPortal.bne) now application
        | JobPortal.trabajando => apply_trabajando (submit_ok JobPortal.trabajando) now application
      if result.1 then
        update_application_status st application_id ApplicationStatus.applied now
          ("Postulación enviada a " ++ job_posting.company)
      else
        update_application_status st application_id ApplicationStatus.rejected now
          "Error en el envío"
    | _, _ =>
      update_application_status st application_id ApplicationStatus.rejected now
        "Datos incompletos"

/-! ## API endpoints (src/backend/server.py) -/

/-- The `create_cv` (server.py lines 101-114): build the CV (uuid and clock
passed explicitly); when it is marked default, `update_many` first clears
`is_default` on every CV of that user; then insert. -/
def create_cv (st : Store) (user_id : String) (cv_data : CVDataCreate)
    (new_id : String) (now : Nat) : Store × CVData :=
  let cv : CVData :=
    { id := new_id
      user_id := user_id
      title := cv_data.title
      personal_info := cv_data.personal_info
      experience := cv_data.experience
      education := cv_data.education
      skills := cv_data.skills
      certifications := cv_data.certifications
      languages := cv_data.languages
      raw_text := cv_data.raw_text
      is_default := cv_data.is_default
      created_at := now
      updated_at := now }
  let cvs' :=
    if cv.is_default then
      st.cvs.map (fun c => if c.user_id == user_id then { c with is_default := false } else c)
    else st.cvs
  ({ st with cvs := cvs' ++ [cv] }, cv)

/-- The `update_cv` (server.py lines 133-148): `$set` all `CVDataCreate` fields
plus `updated_at` on the CV with the given id; `none` is the 404 when no CV
matches.  No other CV of the user is touched. -/
def update_cv (st : Store) (cv_id : String) (cv_data : CVDataCreate)
    (now : Nat) : Option Store :=
  if (st.cvs.find? (fun c => c.id == cv_id)).isSome then
    some { st with cvs :=
      (update_first (fun c => c.id == cv_id)
        (fun c =>
          { c with
            title := cv_data.title
            personal_info := cv_data.personal_info
            experience := cv_data.experience
            education := cv_data.education
            skills := cv_data.skills
            certifications := cv_data.certifications
            languages := cv_data.languages
            raw_text := cv_data.raw_text
            is_default := cv_data.is_default
            updated_at := now })
        st.cvs) }
  else none

/-- The `apply_to_job` (server.py lines 237-275): 404 when the job is missing;
the default CV is used when none is given, 400 when there is none; then a
fresh PENDING application is inserted unconditionally (no existing-application
lookup) and its id returned. -/
def apply_to_job (st : Store) (user_id job_id : String) (cv_id : Option String)
    (custom_message : Option String) (new_id : String) (now : Nat) :
    Except String (Store × String) :=
  match st.jobs.find? (fun j => j.id == job_id) with
  | none => Except.error "Trabajo no encontrado"
  | some _ =>
    let cv_resolved : Except String String :=
      match cv_id with
      | some c => Except.ok c
      | none =>
        match st.cvs.find? (fun c => c.user_id == user_id && c.is_default) with
        | none => Except.error "No hay CV por defecto configurado"
        | some cv => Except.ok cv.id
    match cv_resolved with
    | Except.error e => Except.error e
    | Except.ok cvid =>
      let application : JobApplication :=
        { id := new_id
          user_id := user_id
          job_id := job_id
          cv_used := cvid
          cover_letter := none
          custom_message := custom_message
          portal_data := []
          status := ApplicationStatus.pending
          applied_at := none
          last_update := now
          notes := none
          created_at := now }
      Except.ok ({ st with applications := st.applications ++ [application] }, new_id)

/-- The `get_user_jobs` (server.py lines 195-208): the query matches on the
optional portal only — the `user_id` path parameter is never used — then
`skip`/`limit` paginate. -/
def get_user_jobs (st : Store) (user_id : String) (portal : Option JobPortal)
    (limit skip : Nat) : List JobPosting :=
  let query := fun (j : JobPosting) =>
    match portal with
    | some p => j.portal == p
    | none => true
  (((st.jobs.filter query).drop skip).take limit)

/-- The `get_user_applications` (server.py lines 221-234): query on `user_id`
plus the optional status. -/
def get_user_applications (st : Store) (user_id : String)
    (status : Option ApplicationStatus) (limit skip : Nat) : List JobApplication :=
  let query := fun (a : JobApplication) =>
    a.user_id == user_id &&
      (match status with
       | some s => a.status == s
       | none => true)
  (((st.applications.filter query).drop skip).take limit)

/-! ## Concrete sample data used by witnesses and counterexamples -/

/-- A CV sharing no word with `job_zero`. -/
def cv_zero : CVData :=
  { id := "cv0", user_id := "u1", title := "CV", personal_info := [], experience := [],
    education := [], skills := [], certifications := [], languages := [],
    raw_text := "aaa bbb", is_default := true, created_at := 0, updated_at := 0 }

/-- A posting sharing no word with `cv_zero`. -/
def job_zero : JobPosting :=
  { id := "j0", portal := JobPortal.linkedin, external_id := "e0", url := "u", title := "t",
    company := "c", location := "l", description := "ccc ddd", requirements := [],
    keywords_matched := [] }

/-- A CV sharing exactly four words with `job_four`. -/
def cv_four : CVData :=
  { cv_zero with id := "cv4", raw_text := "alpha beta gamma delta" }

/-- A posting sharing exactly four words with `cv_four`. -/
def job_four : JobPosting :=
  { job_zero with id := "j4", description := "alpha beta gamma", requirements := ["delta"] }

/-- CV whose `personal_info` name is Juan. -/
def cv6_juan : CVData :=
  { cv_zero with id := "cv6a", personal_info := [("name", "Juan")] }

/-- CV identical to `cv6_juan` except for the name. -/
def cv6_maria : CVData :=
  { cv_zero with id := "cv6b", personal_info := [("name", "Maria")] }

/-- Posting used by the cover-letter claims. -/
def job6 : JobPosting :=
  { job_zero with id := "j6", company := "Acme", title := "Vendedor" }

/-- Empty document store. -/
def empty_store : Store := { applications := [], jobs := [], cvs := [] }

/-- A pending application whose `job_id` has no matching posting. -/
def a1_pending : JobApplication :=
  { id := "a1", user_id := "u1", job_id := "j1", cv_used := "c1", cover_letter := none,
    custom_message := none, portal_data := [], status := ApplicationStatus.pending,
    applied_at := none, last_update := 0, notes := none, created_at := 0 }

/-- Store holding `a1_pending` but no posting for it. -/
def st1 : Store := { applications := [a1_pending], jobs := [], cvs := [cv_zero] }

/-- A pending application with posting and CV both present. -/
def a2_pending : JobApplication :=
  { a1_pending with id := "a2", job_id := "j2", cv_used := "cv0" }

/-- LinkedIn posting for the success-path run. -/
def job2 : JobPosting :=
  { job_zero with id := "j2", company := "Acme" }

/-- Store for the success-path pipeline run. -/
def st2 : Store := { applications := [a2_pending], jobs := [job2], cvs := [cv_zero] }

/-- Scraper state whose LinkedIn counter already sits at its ceiling. -/
def st3w : ScraperState :=
  { current_counts := fun q => if q = JobPortal.linkedin then 20 else 0, last_reset := 5 }

/-- Search filters configuring LinkedIn and Laborum. -/
def filters3w : SearchFilters :=
  { id := "f", user_id := "u1", keywords := [], excluded_keywords := [], locations := [],
    portals := [JobPortal.linkedin, JobPortal.laborum], auto_apply := true,
    max_applications_per_day := 50, is_active := true }

/-- Scraper state with 10 LinkedIn actions already recorded today. -/
def stc4 : ScraperState :=
  { current_counts := fun q => if q = JobPortal.linkedin then 10 else 0, last_reset := 0 }

/-- One successfully extracted LinkedIn card. -/
def card_c4 : LinkedInCard :=
  { job_id := "x", title := "t", href := "h", company := "c", location := "l" }

/-- Default CV A of user u1. -/
def cvA : CVData := { cv_zero with id := "cvA", is_default := true }

/-- Non-default CV B of user u1. -/
def cvB : CVData := { cv_zero with id := "cvB", is_default := false }

/-- Store holding the two CVs of user u1, A being the default. -/
def st7 : Store := { applications := [], jobs := [], cvs := [cvA, cvB] }

/-- Update body marking a CV as default. -/
def upd7 : CVDataCreate :=
  { title := "CV", personal_info := [], experience := [], education := [], skills := [],
    certifications := [], languages := [], raw_text := "aaa bbb", is_default := true }

/-- Store with one posting and user u1's default CV. -/
def st8 : Store :=
  { applications := [], jobs := [{ job_zero with id := "j1" }], cvs := [cvA] }

/-- An application of user alice. -/
def app9 : JobApplication :=
  { a1_pending with id := "a9", user_id := "alice", job_id := "j9" }

/-- Store with one posting and one application of alice. -/
def st9 : Store :=
  { applications := [app9], jobs := [{ job_zero with id := "j9" }], cvs := [] }

/-! ## Helper lemmas -/

/-- The recommendation `if` of the compatibility fallback, in isolation. -/
theorem recommendation_if_iff (c : Nat) :
    ((if 30 < c then "Tal vez" else "No") = "Tal vez") ↔ 30 < c := by
  by_cases h : 30 < c
  · simp [h]
  · simp only [if_neg h]
    constructor
    · intro hh
      exact absurd hh (by decide)
    · intro hh
      exact absurd hh h

/-- The recommendation `if` only produces the two fixed strings. -/
theorem recommendation_if_cases (c : Nat) :
    (if 30 < c then "Tal vez" else "No") = "Tal vez" ∨
      (if 30 < c then "Tal vez" else "No") = "No" := by
  by_cases h : 30 < c
  · exact Or.inl (by simp [h])
  · exact Or.inr (by simp [h])

/-- The `find?` after `update_first`, when the rewrite preserves the predicate. -/
theorem find?_update_first {α : Type} (p : α → Bool) (f : α → α)
    (hp : ∀ a, p a = true → p (f a) = true) :
    ∀ l : List α, (update_first p f l).find? p = (l.find? p).map f := by
  intro l
  induction l with
  | nil => rfl
  | cons x xs ih =>
    by_cases hx : p x = true
    · simp [update_first, hx, List.find?_cons_of_pos, hp x hx]
    · have hx' : p x = false := by simpa using hx
      simp [update_first, hx', List.find?_cons_of_neg, ih]

/-! ## C5 -/

/-- C5: the local compatibility fallback returns
`percentage = min(10 × |common words|, 100)`, recommends "Tal vez" (maybe)
exactly when the percentage exceeds 30 and "No" otherwise; zero common words
give 0 and "No", four common words give 40. -/
theorem basic_compatibility_fallback_spec (cv_data : CVData) (job_posting : JobPosting) :
    ((basic_compatibility_analysis cv_data job_posting).compatibility_percentage =
        Nat.min ((common_words (py_lower cv_data.raw_text)
          (py_lower (job_posting.description ++ " " ++
            String.intercalate " " job_posting.requirements))).length * 10) 100 ∧
      ((basic_compatibility_analysis cv_data job_posting).recommendation = "Tal vez" ↔
        30 < (basic_compatibility_analysis cv_data job_posting).compatibility_percentage) ∧
      ((basic_compatibility_analysis cv_data job_posting).recommendation = "Tal vez" ∨
        (basic_compatibility_analysis cv_data job_posting).recommendation = "No")) ∧
    (basic_compatibility_analysis cv_zero job_zero).compatibility_percentage = 0 ∧
    (basic_compatibility_analysis cv_zero job_zero).recommendation = "No" ∧
    (basic_compatibility_analysis cv_four job_four).compatibility_percentage = 40 ∧
    (basic_compatibility_analysis cv_four job_four).recommendation = "Tal vez" := by
  refine ⟨⟨rfl, ?_, ?_⟩, by decide, by decide, by decide, by decide⟩
  · exact recommendation_if_iff _
  · exact recommendation_if_cases _

/-! ## C6 -/

set_option maxRecDepth 8000 in
/-- C6 counterexample: with no configured provider the fallback letter is the
same for two CVs that differ only in the candidate's name, and the name never
occurs in it — so it is not built from the user's name. -/
theorem cover_letter_no_provider_ignores_name :
    generate_cover_letter [] none "u1" cv6_juan job6 =
      generate_cover_letter [] none "u1" cv6_maria job6 ∧
    dict_get cv6_juan.personal_info "name" "" ≠ dict_get cv6_maria.personal_info "name" "" ∧
    ¬ ("Juan".toList <:+: (generate_cover_letter [] none "u1" cv6_juan job6).toList) := by
  refine ⟨by decide, by decide, by decide⟩

/-- C6 amended: without a configured provider `generate_cover_letter` returns
the fixed template built from the posting's company and title only; with a
provider whose call errors it returns the template built from the company,
the title and the CV's `personal_info` name.  Both paths are total. -/
theorem cover_letter_fallback_templates (active_chats : List String)
    (provider : Option String) (user_id : String) (cv_data : CVData)
    (job_posting : JobPosting) :
    (active_chats.contains user_id = false →
      generate_cover_letter active_chats provider user_id cv_data job_posting =
        "Estimados Sres. de " ++ job_posting.company ++
          ", adjunto mi CV para el cargo de " ++ job_posting.title ++ ". Saludos cordiales.") ∧
    (active_chats.contains user_id = true →
      generate_cover_letter active_chats none user_id cv_data job_posting =
        "Estimados Sres. de " ++ job_posting.company ++
          ",\n\nTengo gran interés en el cargo de " ++ job_posting.title ++
          ". Mi experiencia profesional me permite contribuir efectivamente al equipo. Adjunto mi CV para su revisión.\n\nSaludos cordiales,\n" ++
          dict_get cv_data.personal_info "name" "") := by
  constructor
  · intro h
    unfold generate_cover_letter
    rw [h]
    simp
  · intro h
    unfold generate_cover_letter
    rw [h]
    simp

/-- C6 witness: both fallback branches evaluated at concrete inputs. -/
theorem cover_letter_fallback_templates_witness :
    (([] : List String).contains "u1" = false) ∧
    generate_cover_letter [] none "u1" cv6_juan job6 =
      "Estimados Sres. de " ++ job6.company ++
        ", adjunto mi CV para el cargo de " ++ job6.title ++ ". Saludos cordiales." ∧
    (["u1"].contains "u1" = true) ∧
    generate_cover_letter ["u1"] none "u1" cv6_juan job6 =
      "Estimados Sres. de " ++ job6.company ++
        ",\n\nTengo gran interés en el cargo de " ++ job6.title ++
        ". Mi experiencia profesional me permite contribuir efectivamente al equipo. Adjunto mi CV para su revisión.\n\nSaludos cordiales,\n" ++
        dict_get cv6_juan.personal_info "name" "" :=
  ⟨by decide,
   (cover_letter_fallback_templates [] none "u1" cv6_juan job6).1 (by decide),
   by decide,
   (cover_letter_fallback_templates ["u1"] none "u1" cv6_juan job6).2 (by decide)⟩

/-! ## C10 -/

/-- C10: a pipeline run on an application id with no matching record returns
without touching any collection: the store is unchanged. -/
theorem process_missing_application_noop (st : Store) (application_id : String)
    (now : Nat) (active_chats : List String) (provider : Option String)
    (submit_ok : JobPortal → Bool)
    (hfind : st.applications.find? (fun a => a.id == application_id) = none) :
    process_application st application_id now active_chats provider submit_ok = st := by
  simp [process_application, hfind]

/-- C10 witness: the empty store is left untouched. -/
theorem process_missing_application_noop_witness :
    (empty_store.applications.find? (fun a => a.id == "missing") = none) ∧
    process_application empty_store "missing" 0 [] none (fun _ => true) = empty_store :=
  ⟨by decide,
   process_missing_application_noop empty_store "missing" 0 [] none (fun _ => true) (by decide)⟩

/-! ## C1 -/

/-- C1: when the application exists but its posting or CV lookup fails, the
run persists status REJECTED with the non-empty note "Datos incompletos" and
leaves `applied_at` untouched. -/
theorem missing_data_rejected (st : Store) (application_id : String) (now : Nat)
    (active_chats : List String) (provider : Option String)
    (submit_ok : JobPortal → Bool) (app : JobApplication)
    (hfind : st.applications.find? (fun a => a.id == application_id) = some app)
    (hmiss : st.jobs.find? (fun j => j.id == app.job_id) = none ∨
             st.cvs.find? (fun c => c.id == app.cv_used) = none) :
    ∃ a', (process_application st application_id now active_chats provider
              submit_ok).applications.find? (fun a => a.id == application_id) = some a' ∧
      a'.status = ApplicationStatus.rejected ∧
      a'.notes = some "Datos incompletos" ∧
      "Datos incompletos" ≠ "" ∧
      a'.applied_at = app.applied_at := by
  have hrun : process_application st application_id now active_chats provider submit_ok =
      update_application_status st application_id ApplicationStatus.rejected now
        "Datos incompletos" := by
    rcases hmiss with hj | hc
    · simp [process_application, hfind, hj]
    · cases hj2 : st.jobs.find? (fun j => j.id == app.job_id) with
      | none => simp [process_application, hfind, hj2]
      | some j => simp [process_application, hfind, hj2, hc]
  rw [hrun]
  have hfu := find?_update_first (fun a => a.id == application_id)
      (fun a =>
        { a with
          status := ApplicationStatus.rejected
          last_update := now
          notes := some "Datos incompletos"
          applied_at := if ApplicationStatus.rejected = ApplicationStatus.applied then some now
            else a.applied_at })
      (fun a ha => ha) st.applications
  refine ⟨{ app with
            status := ApplicationStatus.rejected
            last_update := now
            notes := some "Datos incompletos"
            applied_at := if ApplicationStatus.rejected = ApplicationStatus.applied then some now
              else app.applied_at },
          ?_, rfl, rfl, by decide, ?_⟩
  · simp only [update_application_status]
    rw [hfu, hfind]
    rfl
  · simp

/-- C1 witness: a concrete run whose posting lookup fails. -/
theorem missing_data_rejected_witness :
    (st1.applications.find? (fun a => a.id == "a1") = some a1_pending) ∧
    (st1.jobs.find? (fun j => j.id == a1_pending.job_id) = none) ∧
    ∃ a', (process_application st1 "a1" 7 [] none
              (fun _ => true)).applications.find? (fun a => a.id == "a1") = some a' ∧
      a'.status = ApplicationStatus.rejected ∧
      a'.notes = some "Datos incompletos" ∧
      "Datos incompletos" ≠ "" ∧
      a'.applied_at = a1_pending.applied_at :=
  ⟨by decide, by decide,
   missing_data_rejected st1 "a1" 7 [] none (fun _ => true) a1_pending (by decide)
     (Or.inl (by decide))⟩

/-! ## C2 -/

/-- C2 failing run: a successful LinkedIn submission persists status APPLIED,
`applied_at` and the success note, but the persisted record's `portal_data`
stays empty — the submission method/evidence written to the in-memory object
is never saved. -/
theorem process_success_drops_portal_data :
    (process_application st2 "a2" 100 [] none (fun _ => true)).applications.map
        (fun a => (a.status, a.applied_at, a.notes, a.portal_data)) =
      [(ApplicationStatus.applied, some 100, some "Postulación enviada a Acme", [])] := by
  decide

/-! ## C3 -/

/-- A full portal is skipped by every iteration of the portal loop: running
with it configured equals running with it filtered out. -/
theorem search_jobs_go_skip_full (fetch : JobPortal → Option (List JobPosting))
    (p : JobPortal) :
    ∀ (portals : List JobPortal) (st : ScraperState),
      daily_limits p ≤ st.current_counts p →
      search_jobs_go fetch portals st =
        search_jobs_go fetch (portals.filter (fun q => q != p)) st := by
  intro portals
  induction portals with
  | nil => intro st _; rfl
  | cons q rest ih =>
    intro st hfull
    by_cases hq : q = p
    · subst hq
      have hallow : quota_allows st q = false := by
        simp only [quota_allows, decide_eq_false_iff_not, not_lt]
        exact hfull
      have hfilter : (q :: rest).filter (fun r => r != q) = rest.filter (fun r => r != q) := by
        simp [List.filter_cons]
      rw [hfilter, ← ih st hfull]
      simp [search_jobs_go, hallow]
    · have hq' : (q != p) = true := by simpa using hq
      have hfilter : (q :: rest).filter (fun r => r != p) =
          q :: rest.filter (fun r => r != p) := by
        simp [List.filter_cons, hq']
      rw [hfilter]
      simp only [search_jobs_go]
      cases hqa : quota_allows st q with
      | false => simpa [hqa] using ih st hfull
      | true =>
        cases hf : fetch q with
        | none => simpa [hqa, hf] using ih st hfull
        | some jobs =>
          have hfull' :
              daily_limits p ≤
                (if p = q then st.current_counts p + jobs.length
                  else st.current_counts p) := by
            rw [if_neg (fun hpq => hq hpq.symm)]
            exact hfull
          simp only [hqa, hf, if_pos rfl]
          rw [ih _ hfull']
          simp

/-- C3: once a portal's recorded count reaches its daily ceiling, the quota
check refuses it (`allow` = false) and a same-day scheduling pass behaves
exactly as if the portal were not configured at all; as soon as the tracked
date advances past `last_reset`, the lazy reset zeroes every counter. -/
theorem quota_ceiling_refuses_and_skips (today : Nat)
    (fetch : JobPortal → Option (List JobPosting)) (filters : SearchFilters)
    (st : ScraperState) (p : JobPortal)
    (hday : ¬ st.last_reset < today)
    (hfull : daily_limits p ≤ st.current_counts p) :
    quota_allows st p = false ∧
    search_jobs today fetch filters st =
      search_jobs today fetch
        { filters with portals := filters.portals.filter (fun q => q != p) } st ∧
    (∀ (st' : ScraperState), st'.last_reset < today →
      ∀ q, (reset_daily_limits today st').current_counts q = 0) := by
  refine ⟨?_, ?_, ?_⟩
  · simp only [quota_allows, decide_eq_false_iff_not, not_lt]
    exact hfull
  · have hreset : reset_daily_limits today st = st := by
      simp [reset_daily_limits, hday]
    unfold search_jobs
    rw [hreset]
    exact search_jobs_go_skip_full fetch p filters.portals st hfull
  · intro st' h q
    simp [reset_daily_limits, h]

/-- C3 witness: LinkedIn at its ceiling of 20 on the same day. -/
theorem quota_ceiling_refuses_and_skips_witness :
    (¬ st3w.last_reset < 5) ∧
    daily_limits JobPortal.linkedin ≤ st3w.current_counts JobPortal.linkedin ∧
    quota_allows st3w JobPortal.linkedin = false :=
  ⟨by decide, by decide,
   (quota_ceiling_refuses_and_skips 5 (fun _ => some []) filters3w st3w
      JobPortal.linkedin (by decide) (by decide)).1⟩

/-! ## C4 -/

/-- A fold appending at most one job per extracted card grows the accumulator
by at most the card count. -/
theorem length_foldl_skip_append {α : Type} (g : α → JobPosting) :
    ∀ (l : List (Option α)) (acc : List JobPosting),
      (l.foldl (scrape_step g) acc).length ≤ acc.length + l.length := by
  intro l
  induction l with
  | nil => intro acc; simp
  | cons c rest ih =>
    intro acc
    cases c with
    | none =>
      have h := ih acc
      simp only [List.foldl_cons, List.length_cons, scrape_step]
      omega
    | some card =>
      have h := ih (acc ++ [g card])
      simp only [List.foldl_cons, List.length_cons, List.length_append,
        List.length_nil, scrape_step] at h ⊢
      omega

/-- C4 counterexample: with 10 LinkedIn actions already recorded (ceiling 20,
so 10 remaining), a single LinkedIn fetch of 20 extractable cards returns 20
postings — more than the remaining quota. -/
theorem scrape_exceeds_remaining_quota :
    daily_limits JobPortal.linkedin - stc4.current_counts JobPortal.linkedin <
      (scrape_linkedin filters3w (List.replicate 20 (some card_c4))).length := by
  decide

/-- C4 amended: every portal fetch is bounded by that portal's full daily
ceiling (the `[:daily_limits[portal]]` slice), not by the remaining quota. -/
theorem scrape_batch_bounded_by_full_limit (filters : SearchFilters)
    (url_bne url_trab : String) (c1 : List (Option LinkedInCard))
    (c2 : List (Option LaborumCard)) (c3 : List (Option BneCard))
    (c4 : List (Option TrabajandoCard)) :
    (scrape_linkedin filters c1).length ≤ daily_limits JobPortal.linkedin ∧
    (scrape_laborum filters c2).length ≤ daily_limits JobPortal.laborum ∧
    (scrape_bne filters url_bne c3).length ≤ daily_limits JobPortal.bne ∧
    (scrape_trabajando filters url_trab c4).length ≤ daily_limits JobPortal.trabajando := by
  refine ⟨?_, ?_, ?_, ?_⟩
  · unfold scrape_linkedin
    have h := length_foldl_skip_append (mk_linkedin_job filters)
      (c1.take (daily_limits JobPortal.linkedin)) []
    have ht : (c1.take (daily_limits JobPortal.linkedin)).length ≤
        daily_limits JobPortal.linkedin := List.length_take_le _ _
    simp only [List.length_nil, Nat.zero_add] at h
    exact Nat.le_trans h ht
  · unfold scrape_laborum
    have h := length_foldl_skip_append (mk_laborum_job filters)
      (c2.take (daily_limits JobPortal.laborum)) []
    have ht : (c2.take (daily_limits JobPortal.laborum)).length ≤
        daily_limits JobPortal.laborum := List.length_take_le _ _
    simp only [List.length_nil, Nat.zero_add] at h
    exact Nat.le_trans h ht
  · unfold scrape_bne
    have h := length_foldl_skip_append (mk_bne_job filters url_bne)
      (c3.take (daily_limits JobPortal.bne)) []
    have ht : (c3.take (daily_limits JobPortal.bne)).length ≤
        daily_limits JobPortal.bne := List.length_take_le _ _
    simp only [List.length_nil, Nat.zero_add] at h
    exact Nat.le_trans h ht
  · unfold scrape_trabajando
    have h := length_foldl_skip_append (mk_trabajando_job filters url_trab)
      (c4.take (daily_limits JobPortal.trabajando)) []
    have ht : (c4.take (daily_limits JobPortal.trabajando)).length ≤
        daily_limits JobPortal.trabajando := List.length_take_le _ _
    simp only [List.length_nil, Nat.zero_add] at h
    exact Nat.le_trans h ht

/-! ## C7 -/

/-- C7 failing run: user u1 has CVs A (default) and B; updating B with
`is_default = true` through `update_cv` leaves the user with TWO default CVs,
because `update_cv` never unsets the flag on other CVs (only `create_cv`
does). -/
theorem update_cv_leaves_two_defaults :
    (update_cv st7 "cvB" upd7 50).map
        (fun s => (s.cvs.filter (fun c => c.user_id == "u1" && c.is_default)).length) =
      some 2 := by
  decide

/-- The create path, in contrast, does keep a single default. -/
theorem create_cv_single_default :
    (((create_cv st7 "u1" upd7 "cvC" 60).1).cvs.filter
        (fun c => c.user_id == "u1" && c.is_default)).length = 1 := by
  decide

/-! ## C8 -/

/-- C8 failing run: two apply requests for the same (user, job) pair both
succeed and leave two active (non-rejected) applications — `apply_to_job`
performs no existing-application check before inserting. -/
theorem apply_to_job_creates_duplicate :
    ((apply_to_job st8 "u1" "j1" none none "app1" 10).toOption.map (fun r =>
        (apply_to_job r.1 "u1" "j1" none none "app2" 11).toOption.map (fun r2 =>
          (r2.1.applications.filter (fun a =>
            a.user_id == "u1" && a.job_id == "j1" &&
              !(a.status == ApplicationStatus.rejected))).length))) =
      some (some 2) := by
  decide

/-! ## C9 -/

/-- C9 counterexample: the per-user jobs listing returns the identical
non-empty result for two distinct user ids — it does not depend on the
requesting user, and `JobPosting` carries no `user_id` at all. -/
theorem get_user_jobs_ignores_requesting_user :
    get_user_jobs st9 "alice" none 50 0 = get_user_jobs st9 "bob" none 50 0 ∧
    get_user_jobs st9 "alice" none 50 0 ≠ [] := by
  refine ⟨by decide, by decide⟩

/-- C9 amended: postings are not user-owned — the jobs listing ignores the
requesting user id and serves every user the same result — while the
applications listing is scoped to the requesting user via `user_id`. -/
theorem jobs_listing_shared_applications_scoped (st : Store) (u1 u2 : String)
    (portal : Option JobPortal) (limit skip : Nat) (u : String)
    (status : Option ApplicationStatus) (a : JobApplication)
    (ha : a ∈ get_user_applications st u status limit skip) :
    get_user_jobs st u1 portal limit skip = get_user_jobs st u2 portal limit skip ∧
    a.user_id = u := by
  refine ⟨rfl, ?_⟩
  simp only [get_user_applications] at ha
  have h1 := List.mem_of_mem_take ha
  have h2 := List.mem_of_mem_drop h1
  have h3 := List.of_mem_filter h2
  have h4 := (Bool.and_eq_true _ _).mp h3
  exact eq_of_beq h4.1

/-- C9 witness: alice's application listing only contains alice's records,
and the jobs listing is user-independent at a concrete store. -/
theorem jobs_listing_shared_applications_scoped_witness :
    (app9 ∈ get_user_applications st9 "alice" none 50 0) ∧
    (get_user_jobs st9 "alice" none 50 0 = get_user_jobs st9 "bob" none 50 0 ∧
      app9.user_id = "alice") :=
  ⟨by decide,
   jobs_listing_shared_applications_scoped st9 "alice" "bob" none 50 0 "alice" none app9
     (by decide)⟩

end Autopostulador
